import Mathlib

/-!
Verification of the attendance status-derivation logic of the Front-Web-GP
dashboard, against its natural-language specification.

The source (TypeScript/React) keeps the core logic in small helpers that are
duplicated per screen:

* `isLate` / `formatTimeWithStatus` in the French agents screen
  (src/unnamed/part_002, lines 432-448) — this variant threads a `tolerance`
  value through, but appends it to the scheduled time with JavaScript string
  concatenation before a lexicographic string comparison;
* `isLate` / `formatTimeWithStatus` in the English settings screen
  (src/src/components/pages/Settings.tsx, lines 1948-1964) — no tolerance
  parameter at all;
* `validateSchedule` in src/src/components/pages/Statistics.tsx,
  lines 323-352.

Times travel through the frontend as `"HH:MM"` strings and every comparison
in the source is a JavaScript string comparison, so the embedding models
JS strings as `List Char` with code-unit lexicographic order and relates
that order to minute arithmetic by proof, not by assumption.
-/

/-- JS code-unit comparison of two characters (`a < b` on UTF-16 code units;
all characters appearing in time strings are ASCII, where code units and
code points agree). -/
def jsCharLt (a b : Char) : Bool := a.toNat < b.toNat

/-- JS string `<`: lexicographic order on code units, a strict prefix being
smaller. -/
def jsLtChars : List Char → List Char → Bool
  | [], [] => false
  | [], _ :: _ => true
  | _ :: _, [] => false
  | a :: as1, b :: bs => if jsCharLt a b then true
      else if jsCharLt b a then false
      else jsLtChars as1 bs

/-- JS `a < b` on strings. -/
def jsLt (a b : String) : Bool := jsLtChars a.data b.data

/-- JS `a > b` on strings, i.e. `b < a`. -/
def jsGt (a b : String) : Bool := jsLt b a

/-- A JS `string | undefined` value, as received by the optional parameters
of the source helpers (`none` = `undefined`). -/
abbrev JSStr := Option String

/-- JS truthiness test `!x` for a `string | undefined` value: `undefined`
and the empty string are falsy. -/
def jsFalsy : JSStr → Bool
  | none => true
  | some s => s.isEmpty

/-- JS string coercion applied by `+` to its right operand: `undefined`
prints as `"undefined"`. -/
def jsPlusArg : JSStr → String
  | none => "undefined"
  | some s => s

/-- `isLate` of the French agents screen (src/unnamed/part_002, 432-435):
`if (!actualTime || !scheduledTime) return false; return actualTime >
(scheduledTime + tol);` — note `scheduledTime + tol` is JS string
concatenation, since `scheduledTime` is a string. -/
def isLate_fr (actualTime scheduledTime : JSStr) (tol : JSStr) : Bool :=
  if jsFalsy actualTime || jsFalsy scheduledTime then false
  else jsGt (jsPlusArg actualTime) (jsPlusArg scheduledTime ++ jsPlusArg tol)

/-- `isLate` of the English settings screen
(src/src/components/pages/Settings.tsx, 1948-1951): no tolerance parameter;
`return actualTime > scheduledTime;`. -/
def isLate_en (actualTime scheduledTime : JSStr) : Bool :=
  if jsFalsy actualTime || jsFalsy scheduledTime then false
  else jsGt (jsPlusArg actualTime) (jsPlusArg scheduledTime)

/-- Return value of `formatTimeWithStatus`: `{ time, status }` with
`status` one of the source's string labels
`"late" | "early" | "ontime" | "absent"`. -/
structure TimeWithStatus where
  time : String
  status : String
  deriving Repr, DecidableEq

/-- `formatTimeWithStatus` of the French agents screen
(src/unnamed/part_002, 438-448).  `ty` is the `type` argument,
`'arrival' | 'departure'`. -/
def formatTimeWithStatus_fr (time scheduledTime : JSStr) (ty : String)
    (tol : JSStr) : TimeWithStatus :=
  if jsFalsy time then ⟨"Not recorded", "absent"⟩
  else
    let late := if ty == "arrival" then isLate_fr time scheduledTime tol
      else false
    let early := if ty == "departure" && !jsFalsy scheduledTime then
        jsLt (jsPlusArg time) (jsPlusArg scheduledTime)
      else false
    ⟨jsPlusArg time, if late then "late" else if early then "early"
      else "ontime"⟩

/-- `formatTimeWithStatus` of the English settings screen
(src/src/components/pages/Settings.tsx, 1954-1964). -/
def formatTimeWithStatus_en (time scheduledTime : JSStr) (ty : String) :
    TimeWithStatus :=
  if jsFalsy time then ⟨"Not recorded", "absent"⟩
  else
    let late := if ty == "arrival" then isLate_en time scheduledTime
      else false
    let early := if ty == "departure" && !jsFalsy scheduledTime then
        jsLt (jsPlusArg time) (jsPlusArg scheduledTime)
      else false
    ⟨jsPlusArg time, if late then "late" else if early then "early"
      else "ontime"⟩

/-- A time of day, hours and minutes, as carried by the backend in the
`"HH:MM"` strings.  Validity (`h < 24`, `m < 60`) is a hypothesis of the
theorems, not bundled. -/
structure HHMM where
  h : Nat
  m : Nat
  deriving Repr, DecidableEq

/-- Minutes since midnight. -/
def HHMM.minutes (t : HHMM) : Nat := t.h * 60 + t.m

/-- The decimal digit characters used by zero-padded time formatting. -/
def dch : Nat → Char
  | 0 => '0'
  | 1 => '1'
  | 2 => '2'
  | 3 => '3'
  | 4 => '4'
  | 5 => '5'
  | 6 => '6'
  | 7 => '7'
  | 8 => '8'
  | 9 => '9'
  | _ => '?'

/-- Two-digit zero-padded rendering of a number below 100. -/
def pad2 (n : Nat) : List Char := [dch (n / 10), dch (n % 10)]

/-- The `"HH:MM"` string of a time, as the backend serialises it. -/
def HHMM.render (t : HHMM) : String :=
  ⟨pad2 t.h ++ ':' :: pad2 t.m⟩

/-- `"HH:MM"` well-formedness of a string: five characters, zero-padded
hour below 24 and minute below 60, a colon in the middle. -/
def isHHMM (x : String) : Bool :=
  match x.data with
  | [d1, d2, c, d3, d4] =>
    d1.isDigit && d2.isDigit && c == ':' && d3.isDigit && d4.isDigit &&
      ((d1.toNat - 48) * 10 + (d2.toNat - 48) < 24) &&
      ((d3.toNat - 48) * 10 + (d4.toNat - 48) < 60)
  | _ => false

/-! ## The data model of the specification

`ScheduleDefinition`, `DailyAttendanceRecord`, `TemporaryExit` and
`EvaluatedStatus` as in spec §3, with times as `HHMM` values (the backend
serialises them to the `"HH:MM"` strings the source helpers compare). -/

structure ScheduleDefinition where
  morningStart : HHMM
  morningEnd : HHMM
  afternoonStart : HHMM
  afternoonEnd : HHMM
  toleranceMinutes : Nat
  deriving Repr, DecidableEq

structure DailyAttendanceRecord where
  morningCheckIn : Option HHMM
  morningCheckOut : Option HHMM
  afternoonCheckIn : Option HHMM
  afternoonCheckOut : Option HHMM
  onLeave : Bool
  leaveType : String
  deriving Repr, DecidableEq

structure TemporaryExit where
  exitTime : HHMM
  returnTime : Option HHMM
  deriving Repr, DecidableEq

inductive DayStatus where
  | Present
  | Late
  | EarlyDeparture
  | Absent
  | OnLeave
  deriving Repr, DecidableEq

structure EvaluatedStatus where
  status : DayStatus
  workedMinutes : Int
  missedMinutes : Int
  deriving Repr, DecidableEq

/-- The `tolerance` value as the French screen receives it from the API
(`dailyAttendance.tolerance`, a decimal string). -/
def tolStr (s : ScheduleDefinition) : String := toString s.toleranceMinutes

/-- Whether no check-in/out time is present at all (spec §4.1's `Absent`
condition). -/
def allFieldsNone (r : DailyAttendanceRecord) : Bool :=
  r.morningCheckIn.isNone && r.morningCheckOut.isNone &&
    r.afternoonCheckIn.isNone && r.afternoonCheckOut.isNone

/-- The morning arrival's lateness badge, exactly as the French screen
computes it (`formatTimeWithStatus(..., 'arrival', tolerance)` at
src/unnamed/part_002 line 946). -/
def morningLate (s : ScheduleDefinition) (r : DailyAttendanceRecord) : Bool :=
  (formatTimeWithStatus_fr (r.morningCheckIn.map HHMM.render)
    (some s.morningStart.render) "arrival" (some (tolStr s))).status == "late"

/-- The afternoon arrival's lateness badge (part_002 line 990). -/
def afternoonLate (s : ScheduleDefinition) (r : DailyAttendanceRecord) :
    Bool :=
  (formatTimeWithStatus_fr (r.afternoonCheckIn.map HHMM.render)
    (some s.afternoonStart.render) "arrival" (some (tolStr s))).status
    == "late"

/-- The morning departure's early badge (part_002 line 968; the source
passes no tolerance for departures). -/
def morningEarly (s : ScheduleDefinition) (r : DailyAttendanceRecord) :
    Bool :=
  (formatTimeWithStatus_fr (r.morningCheckOut.map HHMM.render)
    (some s.morningEnd.render) "departure" none).status == "early"

/-- The afternoon departure's early badge (part_002 line 1012). -/
def afternoonEarly (s : ScheduleDefinition) (r : DailyAttendanceRecord) :
    Bool :=
  (formatTimeWithStatus_fr (r.afternoonCheckOut.map HHMM.render)
    (some s.afternoonEnd.render) "departure" none).status == "early"

/-- Modelled from the spec: the unified daily status is computed by the
unseen backend (the frontend only renders `dailyAttendance.status`), so the
aggregation follows spec §4.1 — leave first, then absent, then the
precedence `Late` over `EarlyDeparture` over `Present` — while each
half-day's late/early classification is the source's own
`formatTimeWithStatus` badge from src/unnamed/part_002.  Note that
classification never compares a check-in against a check-out: each field is
compared against the schedule only. -/
def deriveStatus (s : ScheduleDefinition) (r : DailyAttendanceRecord) :
    DayStatus :=
  if r.onLeave then DayStatus.OnLeave
  else if allFieldsNone r then DayStatus.Absent
  else if morningLate s r || afternoonLate s r then DayStatus.Late
  else if morningEarly s r || afternoonEarly s r then
    DayStatus.EarlyDeparture
  else DayStatus.Present

/-- Modelled from the spec: worked span of one half-day (spec §4.1/§7) —
`checkOut − checkIn` when both endpoints are present, clamped to zero when
`checkOut` precedes `checkIn`, and zero when either endpoint is missing.
No frontend code computes worked minutes (the backend sends `workHours`). -/
def halfWorked : Option HHMM → Option HHMM → Int
  | some i, some o => max 0 ((o.minutes : Int) - (i.minutes : Int))
  | _, _ => 0

/-- Modelled from the spec: a temporary exit is subtracted when its interval
falls within a recorded working span (spec §4.1); an exit with no return
time on a past date is excluded entirely (spec §7 — the "today" clock is
outside this model). -/
def exitCounted (r : DailyAttendanceRecord) (e : TemporaryExit) : Bool :=
  match e.returnTime with
  | none => false
  | some ret =>
    (match r.morningCheckIn, r.morningCheckOut with
      | some i, some o =>
        decide (i.minutes ≤ e.exitTime.minutes ∧ ret.minutes ≤ o.minutes)
      | _, _ => false)
    || (match r.afternoonCheckIn, r.afternoonCheckOut with
      | some i, some o =>
        decide (i.minutes ≤ e.exitTime.minutes ∧ ret.minutes ≤ o.minutes)
      | _, _ => false)

/-- Modelled from the spec: `durationMinutes = returnTime − exitTime` for
the exits that count (spec §3). -/
def exitsMinutes (r : DailyAttendanceRecord) (exits : List TemporaryExit) :
    Int :=
  (exits.filter (exitCounted r)).foldl
    (fun acc e =>
      acc + ((match e.returnTime with
        | some ret => (ret.minutes : Int) - (e.exitTime.minutes : Int)
        | none => 0)))
    0

/-- Scheduled total minutes of a day, spec §4.1:
`(morningEnd − morningStart) + (afternoonEnd − afternoonStart)`. -/
def scheduledTotal (s : ScheduleDefinition) : Int :=
  ((s.morningEnd.minutes : Int) - (s.morningStart.minutes : Int)) +
    ((s.afternoonEnd.minutes : Int) - (s.afternoonStart.minutes : Int))

/-- Modelled from the spec: `evaluate(schedule, record, exits)` of spec
§4.1.  The per-field late/early classification is the source's
(`deriveStatus` builds on the part_002 helpers); the aggregation into one
status and the worked/missed-minute arithmetic exist only in the unseen
backend and are taken from the spec's words. -/
def evaluate (s : ScheduleDefinition) (r : DailyAttendanceRecord)
    (exits : List TemporaryExit) : EvaluatedStatus :=
  let worked : Int :=
    if r.onLeave then 0
    else halfWorked r.morningCheckIn r.morningCheckOut +
      halfWorked r.afternoonCheckIn r.afternoonCheckOut -
      exitsMinutes r exits
  { status := deriveStatus s r
    workedMinutes := worked
    missedMinutes := max 0 (scheduledTotal s - worked) }

/-- JS `String.prototype.trim`: strip whitespace from both ends (modelled
with Lean's `Char.isWhitespace`, which covers the whitespace appearing in
form input). -/
def jsTrim (s : String) : String :=
  ⟨((s.data.dropWhile Char.isWhitespace).reverse.dropWhile
    Char.isWhitespace).reverse⟩

/-- `validateSchedule` of the schedule-editing form
(src/src/components/pages/Statistics.tsx, 323-352): sequential rejection
tests on the raw form values — name required after trimming, then three JS
string comparisons on the `"HH:MM"` fields, then
`isNaN(tolerance) || tolerance < 0`.  `tol = none` models a `NaN`
tolerance. -/
def validateSchedule (name mS mE aS aE : String) (tol : Option Int) :
    Bool :=
  if (jsTrim name).isEmpty then false
  else if !jsLt mS mE then false
  else if !jsLt aS aE then false
  else if jsGt mE aS then false
  else if (match tol with
    | none => true
    | some n => decide (n < 0)) then false
  else true

/-- The concrete schedule of spec §8's worked example. -/
def specExampleSchedule : ScheduleDefinition :=
  { morningStart := ⟨9, 0⟩
    morningEnd := ⟨12, 0⟩
    afternoonStart := ⟨13, 0⟩
    afternoonEnd := ⟨17, 0⟩
    toleranceMinutes := 15 }

/-- The concrete attendance record of spec §8's worked example. -/
def specExampleRecord : DailyAttendanceRecord :=
  { morningCheckIn := some ⟨9, 10⟩
    morningCheckOut := some ⟨12, 0⟩
    afternoonCheckIn := some ⟨13, 0⟩
    afternoonCheckOut := some ⟨17, 0⟩
    onLeave := false
    leaveType := "" }

/-! ## Helper lemmas -/

theorem jsCharLt_dch : ∀ a < 10, ∀ b < 10,
    jsCharLt (dch a) (dch b) = decide (a < b) := by decide

theorem jsLtChars_pad2 (x y : Nat) (hx : x < 100) (hy : y < 100)
    (r s : List Char) :
    jsLtChars (pad2 x ++ r) (pad2 y ++ s) =
      (if x < y then true else if y < x then false else jsLtChars r s) := by
  have h1 := jsCharLt_dch (x / 10) (by omega) (y / 10) (by omega)
  have h2 := jsCharLt_dch (y / 10) (by omega) (x / 10) (by omega)
  have h3 := jsCharLt_dch (x % 10) (by omega) (y % 10) (by omega)
  have h4 := jsCharLt_dch (y % 10) (by omega) (x % 10) (by omega)
  simp only [pad2, List.cons_append, jsLtChars, h1, h2, h3, h4]
  rcases Nat.lt_trichotomy (x / 10) (y / 10) with hd | hd | hd
  · have hxy : x < y := by omega
    simp [hd, hxy]
  · rcases Nat.lt_trichotomy (x % 10) (y % 10) with hm | hm | hm
    · have hxy : x < y := by omega
      simp [hd, Nat.lt_irrefl, hm, hxy]
    · have hxy : x = y := by omega
      simp [hd, hm, Nat.lt_irrefl, hxy]
    · have hxy : y < x := by omega
      simp [hd, Nat.lt_irrefl, Nat.lt_asymm hm, hm, hxy,
        Nat.lt_asymm hxy]
  · have hxy : y < x := by omega
    simp [Nat.lt_asymm hd, hd, Nat.lt_asymm hxy, hxy]

theorem jsLt_render (t1 t2 : HHMM) (hh1 : t1.h < 24) (hm1 : t1.m < 60)
    (hh2 : t2.h < 24) (hm2 : t2.m < 60) :
    jsLt t1.render t2.render = decide (t1.minutes < t2.minutes) := by
  show jsLtChars (pad2 t1.h ++ ':' :: pad2 t1.m)
      (pad2 t2.h ++ ':' :: pad2 t2.m) = _
  rw [jsLtChars_pad2 _ _ (by omega) (by omega)]
  have hcolon : jsLtChars (':' :: pad2 t1.m) (':' :: pad2 t2.m)
      = jsLtChars (pad2 t1.m ++ []) (pad2 t2.m ++ []) := by
    simp [jsLtChars, jsCharLt]
  rw [hcolon, jsLtChars_pad2 _ _ (by omega) (by omega)]
  rcases Nat.lt_trichotomy t1.h t2.h with hh | hh | hh
  · have : t1.minutes < t2.minutes := by
      simp only [HHMM.minutes]; omega
    simp [hh, this]
  · rcases Nat.lt_trichotomy t1.m t2.m with hm | hm | hm
    · have : t1.minutes < t2.minutes := by
        simp only [HHMM.minutes]; omega
      simp [hh, Nat.lt_irrefl, hm, this]
    · have : ¬ t1.minutes < t2.minutes := by
        simp only [HHMM.minutes]; omega
      simp [hh, hm, Nat.lt_irrefl, this, jsLtChars]
    · have : ¬ t1.minutes < t2.minutes := by
        simp only [HHMM.minutes]; omega
      simp [hh, Nat.lt_irrefl, Nat.lt_asymm hm, hm, this]
  · have : ¬ t1.minutes < t2.minutes := by
      simp only [HHMM.minutes]; omega
    simp [Nat.lt_asymm hh, hh, this]

theorem jsGt_render (t1 t2 : HHMM) (hh1 : t1.h < 24) (hm1 : t1.m < 60)
    (hh2 : t2.h < 24) (hm2 : t2.m < 60) :
    jsGt t1.render t2.render = decide (t2.minutes < t1.minutes) :=
  jsLt_render t2 t1 hh2 hm2 hh1 hm1

theorem jsLtChars_append_irrel (s : List Char) :
    ∀ (a t : List Char), s.length = a.length →
      jsLtChars (s ++ t) a = jsLtChars s a := by
  induction s with
  | nil =>
    intro a t h
    have ha : a = [] := List.length_eq_zero.mp h.symm
    subst ha
    cases t <;> simp [jsLtChars]
  | cons c s' ih =>
    intro a t h
    cases a with
    | nil => simp at h
    | cons b a' =>
      simp only [List.length_cons, Nat.succ.injEq] at h
      simp only [List.cons_append, jsLtChars]
      rw [show s'.append t = s' ++ t from rfl, ih a' t h]

theorem isHHMM_length {x : String} (h : isHHMM x = true) :
    x.data.length = 5 := by
  unfold isHHMM at h
  rcases hd : x.data with _ | ⟨d1, _ | ⟨d2, _ | ⟨c, _ | ⟨d3, _ | ⟨d4, _ | _⟩⟩⟩⟩⟩ <;>
    rw [hd] at h <;> first | rfl | exact absurd h (by simp)

theorem render_isEmpty (t : HHMM) : t.render.isEmpty = false := by
  rcases hb : t.render.isEmpty with _ | _
  · rfl
  · exfalso
    have he : t.render = "" := (String.isEmpty_iff t.render).mp hb
    have hd : t.render.data = [] := by rw [he]
    simp [HHMM.render, pad2] at hd

theorem exitsMinutes_allNone (r : DailyAttendanceRecord)
    (exits : List TemporaryExit)
    (h1 : r.morningCheckIn = none) (h2 : r.afternoonCheckIn = none) :
    exitsMinutes r exits = 0 := by
  have hc : ∀ e, exitCounted r e = false := by
    intro e
    unfold exitCounted
    rcases e.returnTime with _ | ret
    · rfl
    · rw [h1, h2]
      rcases r.morningCheckOut with _ | o1 <;>
        rcases r.afternoonCheckOut with _ | o2 <;> rfl
  unfold exitsMinutes
  have : exits.filter (exitCounted r) = [] :=
    List.filter_eq_nil_iff.mpr (fun e _ => by simp [hc e])
  rw [this]
  rfl

/-! ## Claims -/

/-- C1: the spec says an arrival is late iff it exceeds
`scheduledStart + toleranceMinutes` in minute arithmetic, with the boundary
on-time.  The source's `isLate` (part_002) instead appends the tolerance to
the scheduled time with string concatenation, so the grace period is never
applied: an arrival of 09:10 against a 09:00 start with a 15-minute
tolerance is within the grace period (570 ≤ 555 + 15), yet the code
classifies it late. -/
theorem c1_tolerance_never_applied :
    isLate_fr (some (HHMM.render ⟨9, 10⟩)) (some (HHMM.render ⟨9, 0⟩))
        (some (tolStr specExampleSchedule)) = true ∧
      HHMM.minutes ⟨9, 10⟩ ≤ HHMM.minutes ⟨9, 0⟩ +
        specExampleSchedule.toleranceMinutes := by decide

/-- C2 counterexample: on spec §8's example inputs the evaluator does not
return `Present` with `workedMinutes = 420`. -/
theorem c2_spec_example_refuted :
    ¬ ((evaluate specExampleSchedule specExampleRecord []).status =
        DayStatus.Present ∧
      (evaluate specExampleSchedule specExampleRecord []).workedMinutes =
        420) := by decide

/-- C2 amended: on spec §8's example inputs the evaluator returns status
`Late` — the 09:10 morning arrival is classified late because the source's
`isLate` concatenates the tolerance onto the scheduled start as a string,
so the 15-minute grace is never applied — and `workedMinutes = 410`
(09:10→12:00 is 170 minutes, 13:00→17:00 is 240), leaving
`missedMinutes = 10`. -/
theorem c2_spec_example_actual :
    evaluate specExampleSchedule specExampleRecord [] =
      ⟨DayStatus.Late, 410, 10⟩ := by decide

/-- C3: for every recorded half-day departure time and scheduled end, both
duplicated `formatTimeWithStatus` helpers flag the departure as early
exactly when the departure is strictly before the scheduled end, with no
tolerance applied (the French variant's result is independent of the `tol`
argument it is handed). -/
theorem c3_early_departure_iff (t e : HHMM) (tol : JSStr)
    (hth : t.h < 24) (htm : t.m < 60) (heh : e.h < 24) (hem : e.m < 60) :
    ((formatTimeWithStatus_fr (some t.render) (some e.render) "departure"
        tol).status = "early" ↔ t.minutes < e.minutes) ∧
    ((formatTimeWithStatus_en (some t.render) (some e.render)
        "departure").status = "early" ↔ t.minutes < e.minutes) := by
  have h1 := render_isEmpty t
  have h2 := render_isEmpty e
  have hlt := jsLt_render t e hth htm heh hem
  have ha : (("departure" : String) == "arrival") = false := by decide
  have hd : (("departure" : String) == "departure") = true := by decide
  constructor <;>
    simp only [formatTimeWithStatus_fr, formatTimeWithStatus_en, jsFalsy,
      jsPlusArg, h1, h2, ha, hd, Bool.false_eq_true, if_false,
      Bool.not_false, Bool.and_true, if_true, hlt] <;>
    by_cases hm : t.minutes < e.minutes <;>
    simp [hm]

/-- C3 witness: a 16:45 departure against a 17:00 scheduled end is flagged
early. -/
theorem c3_early_departure_iff_witness :
    (formatTimeWithStatus_fr (some (HHMM.render ⟨16, 45⟩))
      (some (HHMM.render ⟨17, 0⟩)) "departure" none).status = "early" :=
  ((c3_early_departure_iff ⟨16, 45⟩ ⟨17, 0⟩ none (by decide) (by decide)
    (by decide) (by decide)).1).mpr (by decide)

/-- C4: a record with `onLeave = true` evaluates to `OnLeave` with
`workedMinutes = 0`, whatever check-in/out values and temporary exits are
supplied. -/
theorem c4_onLeave_precedence (s : ScheduleDefinition)
    (r : DailyAttendanceRecord) (exits : List TemporaryExit)
    (h : r.onLeave = true) :
    (evaluate s r exits).status = DayStatus.OnLeave ∧
      (evaluate s r exits).workedMinutes = 0 := by
  constructor
  · simp [evaluate, deriveStatus, h]
  · simp [evaluate, h]

/-- C4 witness: a full day of check-ins plus a temporary exit is still
`OnLeave` with zero worked minutes when the leave flag is set. -/
theorem c4_onLeave_precedence_witness :
    (evaluate specExampleSchedule
        { specExampleRecord with onLeave := true, leaveType := "conge" }
        [⟨⟨10, 0⟩, some ⟨10, 30⟩⟩]).status = DayStatus.OnLeave ∧
      (evaluate specExampleSchedule
        { specExampleRecord with onLeave := true, leaveType := "conge" }
        [⟨⟨10, 0⟩, some ⟨10, 30⟩⟩]).workedMinutes = 0 :=
  c4_onLeave_precedence _ _ _ rfl

/-- C5: a record with `onLeave = false` and all four check-in/out fields
absent evaluates to `Absent` with `workedMinutes = 0`, whatever exits are
supplied. -/
theorem c5_absent_when_no_fields (s : ScheduleDefinition)
    (r : DailyAttendanceRecord) (exits : List TemporaryExit)
    (h0 : r.onLeave = false)
    (h1 : r.morningCheckIn = none) (h2 : r.morningCheckOut = none)
    (h3 : r.afternoonCheckIn = none) (h4 : r.afternoonCheckOut = none) :
    (evaluate s r exits).status = DayStatus.Absent ∧
      (evaluate s r exits).workedMinutes = 0 := by
  have hex := exitsMinutes_allNone r exits h1 h3
  constructor
  · simp [evaluate, deriveStatus, allFieldsNone, h0, h1, h2, h3, h4]
  · simp [evaluate, h0, h1, h3, halfWorked, hex]

/-- C5 witness: an empty record with a stray recorded exit still evaluates
to `Absent` with zero worked minutes. -/
theorem c5_absent_when_no_fields_witness :
    (evaluate specExampleSchedule
        ⟨none, none, none, none, false, ""⟩
        [⟨⟨10, 0⟩, some ⟨10, 30⟩⟩]).status = DayStatus.Absent ∧
      (evaluate specExampleSchedule
        ⟨none, none, none, none, false, ""⟩
        [⟨⟨10, 0⟩, some ⟨10, 30⟩⟩]).workedMinutes = 0 :=
  c5_absent_when_no_fields _ _ _ rfl rfl rfl rfl rfl

/-- C6: when at least one check-in/out time is recorded and the agent is
not on leave, the overall status follows the precedence `Late` (either
half-day arrival flagged late by the source's badge helper) over
`EarlyDeparture` (either half-day departure flagged early) over
`Present`. -/
theorem c6_status_precedence (s : ScheduleDefinition)
    (r : DailyAttendanceRecord) (exits : List TemporaryExit)
    (h0 : r.onLeave = false) (h1 : allFieldsNone r = false) :
    (evaluate s r exits).status =
      (if morningLate s r || afternoonLate s r then DayStatus.Late
       else if morningEarly s r || afternoonEarly s r then
         DayStatus.EarlyDeparture
       else DayStatus.Present) := by
  simp [evaluate, deriveStatus, h0, h1]

/-- C6 witness: applied to spec §8's example inputs. -/
theorem c6_status_precedence_witness :
    (evaluate specExampleSchedule specExampleRecord []).status =
      (if morningLate specExampleSchedule specExampleRecord ||
          afternoonLate specExampleSchedule specExampleRecord then
         DayStatus.Late
       else if morningEarly specExampleSchedule specExampleRecord ||
          afternoonEarly specExampleSchedule specExampleRecord then
         DayStatus.EarlyDeparture
       else DayStatus.Present) :=
  c6_status_precedence _ _ _ rfl rfl

/-- C7: the evaluator is a total function, and a half-day whose check-out
precedes its check-in contributes zero worked minutes — the day's worked
minutes reduce to the other half minus the counted exits — while the
status classification is still the one `deriveStatus` computes, which
compares each field against the schedule only and never inspects the
check-in/check-out ordering. -/
theorem c7_malformed_half_clamped (s : ScheduleDefinition)
    (r : DailyAttendanceRecord) (exits : List TemporaryExit) (i o : HHMM)
    (h0 : r.onLeave = false)
    (h1 : r.morningCheckIn = some i) (h2 : r.morningCheckOut = some o)
    (h3 : o.minutes < i.minutes) :
    halfWorked r.morningCheckIn r.morningCheckOut = 0 ∧
    (evaluate s r exits).workedMinutes =
      halfWorked r.afternoonCheckIn r.afternoonCheckOut -
        exitsMinutes r exits ∧
    (evaluate s r exits).status = deriveStatus s r := by
  have hz : halfWorked (some i) (some o) = 0 := by
    simp only [halfWorked]
    omega
  refine ⟨by rw [h1, h2]; exact hz, ?_, rfl⟩
  simp [evaluate, h0, h1, h2, hz]

/-- C7 witness: a morning pair recorded in the wrong order (in 10:00,
out 09:00) yields zero morning minutes and the ordinary classification. -/
theorem c7_malformed_half_clamped_witness :
    halfWorked (some (⟨10, 0⟩ : HHMM)) (some (⟨9, 0⟩ : HHMM)) = 0 ∧
    (evaluate specExampleSchedule
        ⟨some ⟨10, 0⟩, some ⟨9, 0⟩, none, none, false, ""⟩ []).workedMinutes =
      halfWorked (none : Option HHMM) (none : Option HHMM) -
        exitsMinutes ⟨some ⟨10, 0⟩, some ⟨9, 0⟩, none, none, false, ""⟩ [] ∧
    (evaluate specExampleSchedule
        ⟨some ⟨10, 0⟩, some ⟨9, 0⟩, none, none, false, ""⟩ []).status =
      deriveStatus specExampleSchedule
        ⟨some ⟨10, 0⟩, some ⟨9, 0⟩, none, none, false, ""⟩ :=
  c7_malformed_half_clamped specExampleSchedule
    ⟨some ⟨10, 0⟩, some ⟨9, 0⟩, none, none, false, ""⟩ [] ⟨10, 0⟩ ⟨9, 0⟩
    rfl rfl rfl (by decide)

/-- C9: the evaluator is deterministic — two calls with identical inputs
yield identical outputs.  Side-effect freedom holds because the source
helpers it is built from read and write nothing outside their arguments,
which is what lets them be embedded as pure functions at all. -/
theorem c9_evaluate_deterministic (s s' : ScheduleDefinition)
    (r r' : DailyAttendanceRecord) (exits exits' : List TemporaryExit)
    (hs : s = s') (hr : r = r') (he : exits = exits') :
    evaluate s r exits = evaluate s' r' exits' := by
  rw [hs, hr, he]

/-- C9 witness: applied at spec §8's example inputs. -/
theorem c9_evaluate_deterministic_witness :
    evaluate specExampleSchedule specExampleRecord [] =
      evaluate specExampleSchedule specExampleRecord [] :=
  c9_evaluate_deterministic specExampleSchedule specExampleSchedule
    specExampleRecord specExampleRecord [] [] rfl rfl rfl

/-- C10: the two duplicated `isLate` helpers agree — for well-formed
`"HH:MM"` actual and scheduled times and any non-empty digit-string
tolerance, the French variant (which appends the tolerance to the
scheduled time by string concatenation before a lexicographic comparison)
returns exactly the tolerance-free English variant's result, namely
`actualTime > scheduledTime`: the appended tolerance never changes the
comparison. -/
theorem c10_isLate_variants_agree (a s t : String)
    (ha : isHHMM a = true) (hs : isHHMM s = true)
    (_ht : t ≠ "") (_htd : ∀ c ∈ t.data, c.isDigit) :
    isLate_fr (some a) (some s) (some t) = isLate_en (some a) (some s) ∧
      isLate_en (some a) (some s) = jsGt a s := by
  have hla : a.data.length = 5 := isHHMM_length ha
  have hls : s.data.length = 5 := isHHMM_length hs
  have hea : a.isEmpty = false := by
    rcases hb : a.isEmpty with _ | _
    · rfl
    · exfalso
      have : a = "" := (String.isEmpty_iff a).mp hb
      rw [this] at hla
      simp at hla
  have hes : s.isEmpty = false := by
    rcases hb : s.isEmpty with _ | _
    · rfl
    · exfalso
      have : s = "" := (String.isEmpty_iff s).mp hb
      rw [this] at hls
      simp at hls
  have hcat : jsGt a (s ++ t) = jsGt a s := by
    unfold jsGt jsLt
    rw [String.data_append]
    exact jsLtChars_append_irrel s.data a.data t.data (hls.trans hla.symm)
  constructor
  · simp [isLate_fr, isLate_en, jsFalsy, jsPlusArg, hea, hes, hcat]
  · simp [isLate_en, jsFalsy, jsPlusArg, hea, hes]

/-- C10 witness: at a 09:20 arrival, 09:00 start, tolerance string
`"15"`. -/
theorem c10_isLate_variants_agree_witness :
    isLate_fr (some "09:20") (some "09:00") (some "15") =
        isLate_en (some "09:20") (some "09:00") ∧
      isLate_en (some "09:20") (some "09:00") = jsGt "09:20" "09:00" :=
  c10_isLate_variants_agree "09:20" "09:00" "15" (by decide) (by decide)
    (by decide) (by decide)

/-- C8: the schedule-editing form's validation accepts exactly the
schedules whose trimmed name is non-empty and whose times satisfy the
`ScheduleDefinition` invariant
`morningStart < morningEnd ≤ afternoonStart < afternoonEnd` with a
non-negative numeric tolerance — so every schedule the form lets through
satisfies the evaluator's precondition. -/
theorem c8_validateSchedule_iff (name : String) (mS mE aS aE : HHMM)
    (tol : Option Int)
    (h1 : mS.h < 24) (h2 : mS.m < 60) (h3 : mE.h < 24) (h4 : mE.m < 60)
    (h5 : aS.h < 24) (h6 : aS.m < 60) (h7 : aE.h < 24) (h8 : aE.m < 60) :
    validateSchedule name mS.render mE.render aS.render aE.render tol
        = true ↔
      (jsTrim name ≠ "" ∧ mS.minutes < mE.minutes ∧
        mE.minutes ≤ aS.minutes ∧ aS.minutes < aE.minutes ∧
        ∃ n, tol = some n ∧ 0 ≤ n) := by
  have e1 := jsLt_render mS mE h1 h2 h3 h4
  have e2 := jsLt_render aS aE h5 h6 h7 h8
  have e3 := jsGt_render mE aS h3 h4 h5 h6
  unfold validateSchedule
  rw [e1, e2, e3]
  by_cases hn : jsTrim name = ""
  · have hni : (jsTrim name).isEmpty = true := (String.isEmpty_iff _).mpr hn
    rw [hni]
    simp [hn]
  · have hni : (jsTrim name).isEmpty = false := by
      rcases hb : (jsTrim name).isEmpty with _ | _
      · rfl
      · exact absurd ((String.isEmpty_iff _).mp hb) hn
    rcases tol with _ | n
    · simp [hni]
    · by_cases c1 : mS.minutes < mE.minutes <;>
        by_cases c2 : aS.minutes < aE.minutes <;>
        by_cases c3 : aS.minutes < mE.minutes <;>
        by_cases c4 : n < 0 <;>
        simp [hni, hn, c1, c2, c3, c4] <;>
        omega

/-- C8 witness: the standard schedule 09:00–12:00 / 13:00–17:00 with
tolerance 15 and name `"Standard"` is accepted. -/
theorem c8_validateSchedule_iff_witness :
    validateSchedule "Standard" (HHMM.render ⟨9, 0⟩) (HHMM.render ⟨12, 0⟩)
      (HHMM.render ⟨13, 0⟩) (HHMM.render ⟨17, 0⟩) (some 15) = true :=
  (c8_validateSchedule_iff "Standard" ⟨9, 0⟩ ⟨12, 0⟩ ⟨13, 0⟩ ⟨17, 0⟩
      (some 15) (by decide) (by decide) (by decide) (by decide) (by decide)
      (by decide) (by decide) (by decide)).mpr
    ⟨by decide, by decide, by decide, by decide, 15, rfl, by decide⟩
